import Mathlib

/-
Verification of the client-side session manager in
src/src/contexts/AuthContext.tsx.

The module keeps two pieces of state: the persisted bearer token
(localStorage key authToken, modelled as an Option String) and the
in-memory user (React useState, Option User).  The network is modelled
as an oracle: each operation takes the outcome of its single fetch call
as an explicit argument.  Each operation also returns the list of
external effects it performed (fetches, token-store writes/removals),
so frame properties such as "no token write happened" are provable.
-/

/-- Role enumeration from the User interface: parent or child. -/
inductive Role
  | parent
  | child
deriving DecidableEq

/-- Subscription enumeration from the User interface: free, basic or premium
(the field itself may also be null, modelled by Option at the use site). -/
inductive Subscription
  | free
  | basic
  | premium
deriving DecidableEq

/-- The authenticated principal, as in the User interface of the source. -/
structure User where
  id : String
  name : String
  email : String
  role : Role
  subscription : Option Subscription
deriving DecidableEq

/-- Observable session state: the persisted token (localStorage slot
authToken) and the in-memory user of the provider component. -/
structure AuthState where
  authToken : Option String
  user : Option User
deriving DecidableEq

/-- External effects an operation can perform: the three fetch endpoints
and the two token-store mutations. -/
inductive Eff
  | fetchMe (token : String)
  | fetchLogin (email password : String)
  | fetchRegister (name email password : String)
  | storeSave (token : String)
  | storeRemove
deriving DecidableEq

/-- Whether an effect is a network request. -/
def Eff.isFetch : Eff → Bool
  | .fetchMe _ => true
  | .fetchLogin _ _ => true
  | .fetchRegister _ _ _ => true
  | _ => false

/-- Whether an effect mutates the token store (a write or a removal). -/
def Eff.touchesStore : Eff → Bool
  | .storeSave _ => true
  | .storeRemove => true
  | _ => false

/-- Result of awaiting response.json(): either the body fails to parse as
JSON (the promise rejects), or it parses and the fields the code reads
are given by a value of type a. -/
inductive ApiBody (a : Type)
  | parseFailure
  | parsed (v : a)
deriving DecidableEq

/-- Outcome of the fetch in fetchUserFromToken: the fetch itself rejects,
or the response has a non-success status, or it has a success status with
a body whose parsed user field is the given Option User (none models a
JSON body with the user field absent or null). -/
inductive MeResp
  | networkFailure
  | badStatus
  | okStatus (body : ApiBody (Option User))
deriving DecidableEq

/-- Outcome of the fetch in login/register: the fetch itself rejects, or a
non-success status whose parsed body carries an optional message field,
or a success status whose parsed body carries the token and user fields. -/
inductive LoginResp
  | networkFailure
  | badStatus (body : ApiBody (Option String))
  | okStatus (body : ApiBody (String × User))
deriving DecidableEq

/-- Failure modes of login/register as seen by the caller: a thrown
new Error with a message, a rejected response.json() promise propagating,
or the fetch rejection propagating. -/
inductive AuthFailure
  | thrown (message : String)
  | jsonParseFailure
  | networkFailure
deriving DecidableEq

/-- How a login/register call settles for its caller. -/
inductive CallResult
  | success
  | failed (e : AuthFailure)
deriving DecidableEq

/-- True exactly when the call failed with a thrown Error carrying a
message, i.e. the clean AuthError path of the source. -/
def CallResult.isCleanAuthError : CallResult → Bool
  | .failed (.thrown _) => true
  | _ => false

/-- Result of a login/register call: the session state at the moment the
call settles, how it settled, and the external effects performed. -/
structure OpResult where
  state : AuthState
  result : CallResult
  effs : List Eff
deriving DecidableEq

/-- localStorage.setItem applied to the authToken key (source: saveToken). -/
def saveToken (s : AuthState) (token : String) : AuthState :=
  { s with authToken := some token }

/-- localStorage.getItem applied to the authToken key (source: getToken). -/
def getToken (s : AuthState) : Option String :=
  s.authToken

/-- localStorage.removeItem applied to the authToken key
(source: removeToken). -/
def removeToken (s : AuthState) : AuthState :=
  { s with authToken := none }

/-- The setUser state setter of the provider component. -/
def setUser (s : AuthState) (u : Option User) : AuthState :=
  { s with user := u }

/-- The derived isAuthenticated flag of the exposed facade: the source
computes it as the double negation of user, i.e. user is present. -/
def isAuthenticated (s : AuthState) : Bool :=
  s.user.isSome

/-- JavaScript m || d for a string field m that may be absent: absent and
the empty string are both falsy, so both fall through to the default d. -/
def jsOrElse (m : Option String) (d : String) : String :=
  match m with
  | some msg => if msg = "" then d else msg
  | none => d

/-- fetchUserFromToken from the source (session restoration).  The whole
body sits in a try/catch: a fetch rejection or a response.json()
rejection lands in the catch, which removes the token and clears the
user; a non-success status removes the token, clears the user and
returns; a success status sets the user to the parsed body's user field.
No failure escapes to the caller: the function totally returns a state. -/
def fetchUserFromToken (token : String) (s : AuthState) (resp : MeResp) :
    AuthState × List Eff :=
  match resp with
  | .networkFailure =>
      (setUser (removeToken s) none, [.fetchMe token, .storeRemove])
  | .badStatus =>
      (setUser (removeToken s) none, [.fetchMe token, .storeRemove])
  | .okStatus .parseFailure =>
      (setUser (removeToken s) none, [.fetchMe token, .storeRemove])
  | .okStatus (.parsed uopt) =>
      (setUser s uopt, [.fetchMe token])

/-- The auto-login useEffect that runs once on mount: read the persisted
token; if absent do nothing, otherwise restore the session from it. -/
def initSession (s : AuthState) (resp : MeResp) : AuthState × List Eff :=
  match getToken s with
  | none => (s, [])
  | some token => fetchUserFromToken token s resp

/-- login from the source.  A fetch rejection propagates (no try/catch).
On a non-success status the body is parsed (a parse rejection
propagates) and new Error(errorData.message || the generic message) is
thrown, with no state change.  On a success status the body is parsed (a
parse rejection propagates, before any mutation), then the token is
saved and the user set. -/
def login (email password : String) (s : AuthState) (resp : LoginResp) :
    OpResult :=
  match resp with
  | .networkFailure =>
      ⟨s, .failed .networkFailure, [.fetchLogin email password]⟩
  | .badStatus .parseFailure =>
      ⟨s, .failed .jsonParseFailure, [.fetchLogin email password]⟩
  | .badStatus (.parsed msg) =>
      ⟨s, .failed (.thrown (jsOrElse msg "Login failed")),
       [.fetchLogin email password]⟩
  | .okStatus .parseFailure =>
      ⟨s, .failed .jsonParseFailure, [.fetchLogin email password]⟩
  | .okStatus (.parsed (t, u)) =>
      ⟨setUser (saveToken s t) (some u), .success,
       [.fetchLogin email password, .storeSave t]⟩

/-- register from the source: same shape as login, against the
registration endpoint, with the generic message Registration failed. -/
def register (name email password : String) (s : AuthState)
    (resp : LoginResp) : OpResult :=
  match resp with
  | .networkFailure =>
      ⟨s, .failed .networkFailure, [.fetchRegister name email password]⟩
  | .badStatus .parseFailure =>
      ⟨s, .failed .jsonParseFailure, [.fetchRegister name email password]⟩
  | .badStatus (.parsed msg) =>
      ⟨s, .failed (.thrown (jsOrElse msg "Registration failed")),
       [.fetchRegister name email password]⟩
  | .okStatus .parseFailure =>
      ⟨s, .failed .jsonParseFailure, [.fetchRegister name email password]⟩
  | .okStatus (.parsed (t, u)) =>
      ⟨setUser (saveToken s t) (some u), .success,
       [.fetchRegister name email password, .storeSave t]⟩

/-- logout from the source: remove the token, clear the user.  It is
synchronous and total, and its effect list contains no fetch. -/
def logout (s : AuthState) : AuthState × List Eff :=
  (setUser (removeToken s) none, [.storeRemove])

/-- The token/user consistency invariant of the spec: whenever the token
store holds no token, the in-memory user is none. -/
def TokenUserConsistent (s : AuthState) : Prop :=
  s.authToken = none → s.user = none

/-- A concrete principal used by closed example statements. -/
def annUser : User :=
  { id := "1", name := "Ann", email := "ann@x.com",
    role := .parent, subscription := some .free }

/-- C1, counterexample.  An HTTP-success response from the me endpoint
whose body parses as JSON but lacks the user field is not a well-formed
success, yet the code runs setUser(data.user) with an absent user and
never touches the token store: the persisted token survives.  The claim
says every such outcome deletes the persisted token. -/
theorem c1_counterexample_malformed_body_keeps_token :
    (fetchUserFromToken "t0" ⟨some "t0", some annUser⟩
        (.okStatus (.parsed none))).1.authToken = some "t0" ∧
    ((fetchUserFromToken "t0" ⟨some "t0", some annUser⟩
        (.okStatus (.parsed none))).1.authToken).isNone = false ∧
    (fetchUserFromToken "t0" ⟨some "t0", some annUser⟩
        (.okStatus (.parsed none))).1.user = none ∧
    (fetchUserFromToken "t0" ⟨some "t0", some annUser⟩
        (.okStatus (.parsed none))).2 = [.fetchMe "t0"] := by
  decide

/-- C1, amended.  For a network error, a non-success HTTP status, or a
response body that fails to parse as JSON, restoration deletes the
persisted token and sets user to none; the failure is never surfaced
(the operation is total and returns a state, not an error).  An
HTTP-success body that parses but lacks the user field instead sets the
user to none while leaving the token in place (see the counterexample). -/
theorem c1_restore_failure_clears_session (token : String) (s : AuthState)
    (resp : MeResp)
    (h : resp = .networkFailure ∨ resp = .badStatus ∨
      resp = .okStatus .parseFailure) :
    (fetchUserFromToken token s resp).1.authToken = none ∧
    (fetchUserFromToken token s resp).1.user = none := by
  rcases h with h | h | h <;> subst h <;>
    simp [fetchUserFromToken, setUser, removeToken]

/-- Witness for c1_restore_failure_clears_session at a concrete state and
a concrete failing response. -/
theorem c1_restore_failure_clears_session_witness :
    (fetchUserFromToken "t0" ⟨some "t0", some annUser⟩
        .networkFailure).1.authToken = none ∧
    (fetchUserFromToken "t0" ⟨some "t0", some annUser⟩
        .networkFailure).1.user = none :=
  c1_restore_failure_clears_session "t0" ⟨some "t0", some annUser⟩
    .networkFailure (Or.inl rfl)

/-- C2: when login resolves successfully with a parsed body carrying the
token and the user, the call succeeds, the in-memory user equals the
server-returned principal, the token store holds exactly the
server-returned token, and isAuthenticated is true. -/
theorem c2_login_success_sets_session (email password t : String) (u : User)
    (s : AuthState) :
    (login email password s (.okStatus (.parsed (t, u)))).result
      = .success ∧
    (login email password s (.okStatus (.parsed (t, u)))).state.user
      = some u ∧
    (login email password s (.okStatus (.parsed (t, u)))).state.authToken
      = some t ∧
    isAuthenticated (login email password s (.okStatus (.parsed (t, u)))).state
      = true := by
  simp [login, setUser, saveToken, isAuthenticated]

/-- C3: from every prior state, logout leaves user none, the token store
empty and isAuthenticated false, and performs no network request (its
effect list contains no fetch); it is total, hence always succeeds. -/
theorem c3_logout_clears_session (s : AuthState) :
    (logout s).1.user = none ∧
    (logout s).1.authToken = none ∧
    isAuthenticated (logout s).1 = false ∧
    ((logout s).2.all fun e => ! e.isFetch) = true := by
  simp [logout, setUser, removeToken, isAuthenticated, Eff.isFetch]

/-- C4, counterexample.  A rejected login whose body carries the message
field with the empty string has a server-supplied message present, yet
the thrown error carries the generic message instead, because the
JavaScript or-default treats the empty string as falsy. -/
theorem c4_counterexample_empty_message :
    (login "a@b.c" "pw" ⟨none, none⟩
        (.badStatus (.parsed (some "")))).result
      = .failed (.thrown "Login failed") ∧
    (("Login failed" : String) == "") = false := by
  decide

/-- C4, amended.  On a non-success login response with a parsed body, the
call fails with a thrown error carrying the server-supplied message when
it is present and non-empty, and the generic message Login failed when
the message field is absent or the empty string; the state is left
unchanged and no token-store effect is performed. -/
theorem c4_login_badstatus_error_contract (email password m : String)
    (s : AuthState) (h : (m == "") = false) :
    (login email password s (.badStatus (.parsed (some m)))).result
      = .failed (.thrown m) ∧
    (login email password s (.badStatus (.parsed (some m)))).state = s ∧
    ((login email password s (.badStatus (.parsed (some m)))).effs.all
      fun e => ! e.touchesStore) = true ∧
    (login email password s (.badStatus (.parsed none))).result
      = .failed (.thrown "Login failed") ∧
    (login email password s (.badStatus (.parsed none))).state = s ∧
    ((login email password s (.badStatus (.parsed none))).effs.all
      fun e => ! e.touchesStore) = true ∧
    (login email password s (.badStatus (.parsed (some "")))).result
      = .failed (.thrown "Login failed") := by
  rw [beq_eq_false_iff_ne] at h
  simp [login, jsOrElse, Eff.touchesStore, h]

/-- Witness for c4_login_badstatus_error_contract at the rejected
credentials scenario of the spec. -/
theorem c4_login_badstatus_error_contract_witness :
    (login "a@b.c" "pw" ⟨none, none⟩
        (.badStatus (.parsed (some "Invalid credentials")))).result
      = .failed (.thrown "Invalid credentials") ∧
    (login "a@b.c" "pw" ⟨none, none⟩
        (.badStatus (.parsed (some "Invalid credentials")))).state
      = ⟨none, none⟩ ∧
    ((login "a@b.c" "pw" ⟨none, none⟩
        (.badStatus (.parsed (some "Invalid credentials")))).effs.all
      fun e => ! e.touchesStore) = true ∧
    (login "a@b.c" "pw" ⟨none, none⟩ (.badStatus (.parsed none))).result
      = .failed (.thrown "Login failed") ∧
    (login "a@b.c" "pw" ⟨none, none⟩ (.badStatus (.parsed none))).state
      = ⟨none, none⟩ ∧
    ((login "a@b.c" "pw" ⟨none, none⟩
        (.badStatus (.parsed none))).effs.all
      fun e => ! e.touchesStore) = true ∧
    (login "a@b.c" "pw" ⟨none, none⟩
        (.badStatus (.parsed (some "")))).result
      = .failed (.thrown "Login failed") :=
  c4_login_badstatus_error_contract "a@b.c" "pw" "Invalid credentials"
    ⟨none, none⟩ (by decide)

/-- C5: the token/user consistency invariant (token absent implies user
none) is preserved by every operation; restoration is entered with the
token that was read from the store, so its conjunct carries that store
state.  Additionally, a well-formed restoration success leaves the token
and sets the user together, and a login or register success sets the
token and the user together. -/
theorem c5_token_user_consistency (s : AuthState) (token e p n t : String)
    (uu : Option User) (u : User) (mresp : MeResp) (lresp rresp : LoginResp)
    (h : TokenUserConsistent s) :
    TokenUserConsistent (initSession s mresp).1 ∧
    TokenUserConsistent (fetchUserFromToken token ⟨some token, uu⟩ mresp).1 ∧
    TokenUserConsistent (login e p s lresp).state ∧
    TokenUserConsistent (register n e p s rresp).state ∧
    TokenUserConsistent (logout s).1 ∧
    (fetchUserFromToken token ⟨some token, uu⟩
        (.okStatus (.parsed (some u)))).1 = ⟨some token, some u⟩ ∧
    (login e p s (.okStatus (.parsed (t, u)))).state = ⟨some t, some u⟩ ∧
    (register n e p s (.okStatus (.parsed (t, u)))).state
      = ⟨some t, some u⟩ := by
  refine ⟨?_, ?_, ?_, ?_, ?_, ?_, ?_, ?_⟩
  · unfold initSession getToken
    cases hs : s.authToken with
    | none => simpa using h
    | some tk =>
        cases mresp with
        | networkFailure =>
            intro _; simp [fetchUserFromToken, setUser, removeToken]
        | badStatus =>
            intro _; simp [fetchUserFromToken, setUser, removeToken]
        | okStatus body =>
            cases body with
            | parseFailure =>
                intro _; simp [fetchUserFromToken, setUser, removeToken]
            | parsed uopt =>
                intro hnone
                exfalso
                simp [fetchUserFromToken, setUser, hs] at hnone
  · cases mresp with
    | networkFailure =>
        intro _; simp [fetchUserFromToken, setUser, removeToken]
    | badStatus =>
        intro _; simp [fetchUserFromToken, setUser, removeToken]
    | okStatus body =>
        cases body with
        | parseFailure =>
            intro _; simp [fetchUserFromToken, setUser, removeToken]
        | parsed uopt =>
            intro hnone
            exfalso
            simp [fetchUserFromToken, setUser] at hnone
  · cases lresp with
    | networkFailure => exact h
    | badStatus body =>
        cases body with
        | parseFailure => exact h
        | parsed msg => exact h
    | okStatus body =>
        cases body with
        | parseFailure => exact h
        | parsed tu =>
            obtain ⟨t2, u2⟩ := tu
            intro hnone
            exfalso
            simp [login, setUser, saveToken] at hnone
  · cases rresp with
    | networkFailure => exact h
    | badStatus body =>
        cases body with
        | parseFailure => exact h
        | parsed msg => exact h
    | okStatus body =>
        cases body with
        | parseFailure => exact h
        | parsed tu =>
            obtain ⟨t2, u2⟩ := tu
            intro hnone
            exfalso
            simp [register, setUser, saveToken] at hnone
  · intro _; simp [logout, setUser, removeToken]
  · rfl
  · cases s; rfl
  · cases s; rfl

/-- Witness for c5_token_user_consistency at a concrete consistent state
and concrete responses. -/
theorem c5_token_user_consistency_witness :
    TokenUserConsistent
      (initSession ⟨some "t1", some annUser⟩ .networkFailure).1 ∧
    TokenUserConsistent
      (fetchUserFromToken "t1" ⟨some "t1", some annUser⟩
        .networkFailure).1 ∧
    TokenUserConsistent
      (login "ann@x.com" "pw" ⟨some "t1", some annUser⟩
        .networkFailure).state ∧
    TokenUserConsistent
      (register "Ann" "ann@x.com" "pw" ⟨some "t1", some annUser⟩
        .networkFailure).state ∧
    TokenUserConsistent (logout ⟨some "t1", some annUser⟩).1 ∧
    (fetchUserFromToken "t1" ⟨some "t1", some annUser⟩
        (.okStatus (.parsed (some annUser)))).1
      = ⟨some "t1", some annUser⟩ ∧
    (login "ann@x.com" "pw" ⟨some "t1", some annUser⟩
        (.okStatus (.parsed ("t2", annUser)))).state
      = ⟨some "t2", some annUser⟩ ∧
    (register "Ann" "ann@x.com" "pw" ⟨some "t1", some annUser⟩
        (.okStatus (.parsed ("t2", annUser)))).state
      = ⟨some "t2", some annUser⟩ :=
  c5_token_user_consistency ⟨some "t1", some annUser⟩ "t1" "ann@x.com" "pw"
    "Ann" "t2" (some annUser) annUser .networkFailure .networkFailure
    .networkFailure (by intro hc; exact absurd hc (by decide))

/-- C6: when the me endpoint answers with a success status and a parsed
body carrying the principal, restoration sets the user to that principal
and leaves the persisted token exactly as it was: the resulting token
equals the prior one and the effect list contains no token-store write
or removal. -/
theorem c6_restore_success_token_untouched (token : String) (s : AuthState)
    (u : User) :
    (fetchUserFromToken token s (.okStatus (.parsed (some u)))).1.user
      = some u ∧
    (fetchUserFromToken token s (.okStatus (.parsed (some u)))).1.authToken
      = s.authToken ∧
    ((fetchUserFromToken token s (.okStatus (.parsed (some u)))).2.all
      fun e => ! e.touchesStore) = true := by
  simp [fetchUserFromToken, setUser, Eff.touchesStore]

/-- C7: the exposed isAuthenticated flag is exactly the presence of the
user; the state carries no separate isAuthenticated field, so no
operation can set it independently of user. -/
theorem c7_isAuthenticated_derived (s : AuthState) :
    isAuthenticated s = s.user.isSome ∧
    (isAuthenticated s = true ↔ ∃ u, s.user = some u) ∧
    (isAuthenticated s = false ↔ s.user = none) := by
  refine ⟨rfl, ?_, ?_⟩ <;> cases hu : s.user <;> simp [isAuthenticated, hu]

/-- C8: on a non-success login or register response whose body fails to
parse as JSON, the call fails with the propagated parse rejection, not
with a clean thrown AuthError carrying the generic message. -/
theorem c8_badstatus_parse_failure_unhandled (email password name : String)
    (s : AuthState) :
    (login email password s (.badStatus .parseFailure)).result
      = .failed .jsonParseFailure ∧
    CallResult.isCleanAuthError
      (login email password s (.badStatus .parseFailure)).result = false ∧
    (register name email password s (.badStatus .parseFailure)).result
      = .failed .jsonParseFailure ∧
    CallResult.isCleanAuthError
      (register name email password s
        (.badStatus .parseFailure)).result = false := by
  simp [login, register, CallResult.isCleanAuthError]

/-- C9: if the token store holds no token when the mount-time
initialization runs, the state is untouched, the user stays none, and no
effect at all is performed, in particular no network call. -/
theorem c9_init_without_token (s : AuthState) (resp : MeResp)
    (h1 : s.authToken = none) (h2 : s.user = none) :
    (initSession s resp).1 = s ∧
    (initSession s resp).1.user = none ∧
    (initSession s resp).2 = [] := by
  unfold initSession getToken
  rw [h1]
  exact ⟨rfl, h2, rfl⟩

/-- Witness for c9_init_without_token at the empty state. -/
theorem c9_init_without_token_witness :
    (initSession ⟨none, none⟩ .networkFailure).1 = ⟨none, none⟩ ∧
    (initSession ⟨none, none⟩ .networkFailure).1.user = none ∧
    (initSession ⟨none, none⟩ .networkFailure).2 = [] :=
  c9_init_without_token ⟨none, none⟩ .networkFailure rfl rfl

/-- C10: on a success-status login or register response whose body fails
to parse as JSON, the parse rejection propagates to the caller and the
state at that moment is unchanged: the token store was not written and
the user was not modified (both mutations come after the parse). -/
theorem c10_ok_parse_failure_state_unchanged (email password name : String)
    (s : AuthState) :
    (login email password s (.okStatus .parseFailure)).result
      = .failed .jsonParseFailure ∧
    (login email password s (.okStatus .parseFailure)).state = s ∧
    ((login email password s (.okStatus .parseFailure)).effs.all
      fun e => ! e.touchesStore) = true ∧
    (register name email password s (.okStatus .parseFailure)).result
      = .failed .jsonParseFailure ∧
    (register name email password s (.okStatus .parseFailure)).state = s ∧
    ((register name email password s (.okStatus .parseFailure)).effs.all
      fun e => ! e.touchesStore) = true := by
  simp [login, register, Eff.touchesStore]
